import Mathlib

/-
Verification of the smol-llm orchestrator core against its design spec.

The TypeScript sources are embedded shallowly:
  * `policy.ts`  (tier order, escalation/abort policy)  → pure functions below
  * `executor.ts` (`parsePatch` and its helpers)        → string functions over `List Char`
  * `verifier.ts` (`parseErrors`, `runVerification`, `checkWorkspaceHealth`)
  * `router.ts`  (`Semaphore`, `selectInitialTier`)     → an event-step state machine
  * `index.ts`   (`runOrchestrator` driver loop)        → a step function driven by an
    environment list supplying one model/apply/verify outcome per loop iteration.

JavaScript-specific behaviour is modelled explicitly: `x || d` on strings and
numbers falls back on the empty string / zero (both falsy), optional fields are
`Option`, a thrown exception is an `Option`/sum-type failure value.
-/

set_option maxRecDepth 8000

namespace Smol

/-- Model tiers, in the fixed escalation order fast → deep → reviewer (types.ts). -/
inductive Tier
  | fast
  | deep
  | reviewer
  deriving DecidableEq, Repr

/-- types.ts: `MAX_PATCH_LINES = 300`. -/
def MAX_PATCH_LINES : Nat := 300

/-- types.ts: `MAX_ATTEMPTS_PER_TIER = 2`. -/
def MAX_ATTEMPTS_PER_TIER : Nat := 2

/-- types.ts: `MAX_TOTAL_ATTEMPTS = 5`. -/
def MAX_TOTAL_ATTEMPTS : Nat := 5

/-- The per-tier attempt counters of a task (`tierAttempts: Record<Tier, number>`).
The record is total: `createTask` initialises all three keys to 0, so the
JavaScript `task.tierAttempts[task.tier] || 0` fallback is the identity here. -/
structure TierAttempts where
  fast : Nat
  deep : Nat
  reviewer : Nat
  deriving DecidableEq, Repr

def TierAttempts.get (a : TierAttempts) : Tier → Nat
  | Tier.fast => a.fast
  | Tier.deep => a.deep
  | Tier.reviewer => a.reviewer

def TierAttempts.set (a : TierAttempts) : Tier → Nat → TierAttempts
  | Tier.fast, n => { a with fast := n }
  | Tier.deep, n => { a with deep := n }
  | Tier.reviewer, n => { a with reviewer := n }

/-- types.ts `Task`.  `id` is an opaque string (a UUID in the source). -/
structure Task where
  id : String
  description : String
  filesOwned : List String
  tier : Tier
  attempt : Nat
  maxAttempts : Nat
  tierAttempts : TierAttempts
  deriving DecidableEq, Repr

/-- policy.ts: `TIER_ORDER = ["fast", "deep", "reviewer"]`. -/
def TIER_ORDER : List Tier := [Tier.fast, Tier.deep, Tier.reviewer]

/-- policy.ts `getNextTier`.  The JavaScript `indexOf === -1` branch is
unreachable because every `Tier` occurs in `TIER_ORDER`. -/
def getNextTier (currentTier : Tier) : Option Tier :=
  let currentIndex := TIER_ORDER.indexOf currentTier
  if TIER_ORDER.length - 1 ≤ currentIndex then none
  else TIER_ORDER.get? (currentIndex + 1)

/-- policy.ts `shouldEscalate` (the `_errors` argument is unused in the source too). -/
def shouldEscalate (task : Task) (_errors : List String) : Bool :=
  let tierAttempts := task.tierAttempts.get task.tier
  if MAX_ATTEMPTS_PER_TIER ≤ tierAttempts then
    (getNextTier task.tier).isSome
  else
    false

/-- policy.ts `shouldAbort`. -/
def shouldAbort (task : Task) : Bool :=
  if MAX_TOTAL_ATTEMPTS ≤ task.attempt then
    true
  else
    let tierAttempts := task.tierAttempts.get task.tier
    if MAX_ATTEMPTS_PER_TIER ≤ tierAttempts then
      match getNextTier task.tier with
      | none => true
      | some _ => false
    else
      false

/-- policy.ts `escalateTask`.  The source throws when no next tier exists;
the throw is modelled as `none`. -/
def escalateTask (task : Task) : Option Task :=
  match getNextTier task.tier with
  | none => none
  | some nextTier =>
    some { task with
      tier := nextTier
      attempt := task.attempt + 1
      tierAttempts := task.tierAttempts.set nextTier 0 }

/-- policy.ts `incrementAttempt`. -/
def incrementAttempt (task : Task) : Task :=
  { task with
    attempt := task.attempt + 1
    tierAttempts := task.tierAttempts.set task.tier (task.tierAttempts.get task.tier + 1) }

/-- router.ts `selectInitialTier`. -/
def selectInitialTier (filesOwned : List String) (description : String) : Tier :=
  let fileCount := filesOwned.length
  let descriptionLength := description.length
  if 5 < fileCount || 1000 < descriptionLength then Tier.deep else Tier.fast

/-- index.ts `createTask`.  `crypto.randomUUID()` is external; the id is
irrelevant to every property below and is modelled as `""`. -/
def createTask (description : String) (filesOwned : List String) : Task :=
  { id := ""
    description := description
    filesOwned := filesOwned
    tier := selectInitialTier filesOwned description
    attempt := 0
    maxAttempts := 5
    tierAttempts := { fast := 0, deep := 0, reviewer := 0 } }

/-! ### String helpers mirroring the JavaScript string primitives used by the source -/

/-- First index (if any) at which `pat` occurs in `hay`. -/
def findSub (pat hay : List Char) : Option Nat :=
  match hay with
  | [] => if pat.isEmpty then some 0 else none
  | _ :: rest =>
    if List.isPrefixOf pat hay then some 0
    else (findSub pat rest).map (fun i => i + 1)

/-- JavaScript `String.prototype.includes`. -/
def strIncludes (hay sub : String) : Bool :=
  (findSub sub.data hay.data).isSome

/-- JavaScript `String.prototype.startsWith`. -/
def jsStartsWith (s p : String) : Bool :=
  List.isPrefixOf p.data s.data

/-- Whitespace stripped by JavaScript `String.prototype.trim` (ASCII part). -/
def isJsWhitespace (c : Char) : Bool :=
  c = ' ' || c = '\t' || c = '\n' || c = '\r' || c = '\x0b' || c = '\x0c'

/-- JavaScript `String.prototype.trim`. -/
def jsTrim (s : String) : String :=
  String.mk (((s.data.dropWhile isJsWhitespace).reverse.dropWhile isJsWhitespace).reverse)

/-- `split("\n")` on the underlying character list: `"a\nb" ↦ [[a],[b]]`,
`"a\n" ↦ [[a],[]]`, `"" ↦ [[]]` — exactly JavaScript `split`. -/
def splitNlChars : List Char → List (List Char)
  | [] => [[]]
  | c :: rest =>
    match splitNlChars rest with
    | [] => [[]]
    | g :: gs => if c = '\n' then [] :: g :: gs else (c :: g) :: gs

/-- JavaScript `String.prototype.split("\n")`. -/
def jsSplitLines (s : String) : List String :=
  (splitNlChars s.data).map String.mk

/-- JavaScript `String.prototype.toLowerCase` (ASCII part). -/
def jsToLower (s : String) : String :=
  String.mk (s.data.map Char.toLower)

/-- JavaScript `String.prototype.slice(0, n)`. -/
def jsSlice (s : String) (n : Nat) : String :=
  String.mk (s.data.take n)

/-- JavaScript `Array.prototype.join(sep)`. -/
def jsJoin (sep : String) : List String → String
  | [] => ""
  | [x] => x
  | x :: xs => x ++ sep ++ jsJoin sep xs

/-- JavaScript `o || d` for an optional string (`""` is falsy). -/
def jsOrStr (o : Option String) (d : String) : String :=
  match o with
  | some s => if s = "" then d else s
  | none => d

/-- JavaScript falsiness of an optional string (`undefined` or `""`). -/
def jsFalsyStrOpt : Option String → Bool
  | none => true
  | some s => s == ""

/-! ### executor.ts: `parsePatch` -/

/-- The opening fence required by the regex ` ```diff\n `. -/
def diffOpen : List Char := "```diff\n".data

/-- The closing fence ` ``` `. -/
def closeFence : List Char := "```".data

/-- The non-greedy regex `/```diff\n([\s\S]*?)```/`: the leftmost occurrence of
the opening fence that is followed by a closing fence, capturing the shortest
body in between. -/
def extractDiffBlockAux (cs : List Char) : Option (List Char) :=
  match cs with
  | [] => none
  | _ :: rest =>
    if List.isPrefixOf diffOpen cs then
      let after := cs.drop diffOpen.length
      match findSub closeFence after with
      | some j => some (after.take j)
      | none => extractDiffBlockAux rest
    else
      extractDiffBlockAux rest

def extractDiffBlock (response : String) : Option String :=
  (extractDiffBlockAux response.data).map String.mk

/-- executor.ts `PatchResult` (types.ts). -/
structure PatchResult where
  success : Bool
  patch : Option String := none
  error : Option String := none
  linesChanged : Option Nat := none
  deriving DecidableEq, Repr

/-- executor.ts: the changed-line count of a (trimmed) patch — lines starting
with `+` or `-`, excluding the `+++`/`---` file-header lines. -/
def changeLines (patch : String) : List String :=
  ((jsSplitLines patch).filter
      (fun l => jsStartsWith l "+" || jsStartsWith l "-")).filter
    (fun l => !(jsStartsWith l "+++") && !(jsStartsWith l "---"))

/-- executor.ts `parsePatch`. -/
def parsePatch (response : String) : PatchResult :=
  match extractDiffBlock response with
  | none =>
    { success := false
      error := some "No diff block found in response" }
  | some diffText =>
    let patch := jsTrim diffText
    if MAX_PATCH_LINES < (changeLines patch).length then
      { success := false
        error := some ("Patch too large: " ++ toString (changeLines patch).length ++
          " lines (max " ++ toString MAX_PATCH_LINES ++ ")")
        linesChanged := some (changeLines patch).length }
    else
      { success := true
        patch := some patch
        linesChanged := some (changeLines patch).length }

/-! ### verifier.ts -/

/-- verifier.ts `DEFAULT_COMMANDS`. -/
def DEFAULT_COMMANDS : List String := ["bun run typecheck", "bun run lint", "bun run build"]

/-- verifier.ts `DEFAULT_TIMEOUT = 60_000`. -/
def DEFAULT_TIMEOUT : Nat := 60000

/-- verifier.ts `VerifyConfig`; absent fields are `none`. -/
structure VerifyConfig where
  commands : Option (List String) := none
  timeout : Option Nat := none
  deriving DecidableEq

/-- `config.commands || DEFAULT_COMMANDS`: only `undefined`/`null` are falsy —
an empty array is truthy in JavaScript and is kept. -/
def resolveCommands : Option (List String) → List String
  | none => DEFAULT_COMMANDS
  | some cmds => cmds

/-- `config.timeout || DEFAULT_TIMEOUT`: `undefined` and the number `0` are falsy. -/
def resolveTimeout : Option Nat → Nat
  | none => DEFAULT_TIMEOUT
  | some n => if n = 0 then DEFAULT_TIMEOUT else n

/-- verifier.ts `parseErrors`, up to (excluding) the final
`errors.length > 0 ? errors : [generic]` fallback. -/
def parseErrorsRaw (output command : String) : List String :=
  let lines := jsSplitLines output
  if strIncludes command "typecheck" || strIncludes command "tsc" then
    (lines.filter (fun line => strIncludes line "error TS" || strIncludes line ": error:")).take 10
  else if strIncludes command "lint" || strIncludes command "eslint" then
    (lines.filter (fun line => strIncludes line "error" || strIncludes line "warning")).take 10
  else if strIncludes command "build" then
    (lines.filter (fun line =>
      strIncludes (jsToLower line) "error" || strIncludes (jsToLower line) "failed")).take 10
  else
    if jsTrim output = "" then [] else [command ++ ": " ++ jsSlice output 500]

/-- verifier.ts `parseErrors`. -/
def parseErrors (output command : String) : List String :=
  let errors := parseErrorsRaw output command
  if 0 < errors.length then errors
  else [command ++ " failed with non-zero exit code"]

/-- Outcome of `Bun.spawn` for one verification command: either the process ran
to completion (possibly killed by the timeout, surfaced as a non-zero exit) or
spawning threw. -/
inductive CmdOutcome
  | spawned (exitCode : Nat) (stdout stderr : String)
  | threw (message : String)
  deriving DecidableEq

/-- types.ts `VerifyResult`. -/
structure VerifyResult where
  success : Bool
  errors : Option (List String) := none
  logs : String := ""
  deriving DecidableEq

/-- The `for (const command of commands)` loop body of `runVerification`,
with the child-process execution abstracted as `exec command timeout`. -/
def runVerificationLoop (exec : String → Nat → CmdOutcome) (timeout : Nat)
    (commands : List String) (errors logs : List String) : List String × List String :=
  match commands with
  | [] => (errors, logs)
  | command :: rest =>
    match exec command timeout with
    | CmdOutcome.threw message =>
      runVerificationLoop exec timeout rest
        (errors ++ ["Command \"" ++ command ++ "\" failed: " ++ message]) logs
    | CmdOutcome.spawned exitCode stdout stderr =>
      let logs := logs ++ ["[" ++ command ++ "]\n" ++ stdout ++ stderr]
      if exitCode ≠ 0 then
        let errorOutput := if stderr = "" then stdout else stderr
        runVerificationLoop exec timeout rest (errors ++ parseErrors errorOutput command) logs
      else
        runVerificationLoop exec timeout rest errors logs

/-- verifier.ts `runVerification` (the workspace path is folded into `exec`). -/
def runVerification (exec : String → Nat → CmdOutcome) (config : VerifyConfig) : VerifyResult :=
  let commands := resolveCommands config.commands
  let timeout := resolveTimeout config.timeout
  let result := runVerificationLoop exec timeout commands [] []
  { success := result.1.length = 0
    errors := if result.1.length = 0 then none else some result.1
    logs := jsJoin "\n\n" result.2 }

/-- The parse result of `package.json`: `scripts` is `none` when the field is
absent or falsy, `some entries` when a scripts object is present (possibly empty). -/
structure PackageJson where
  scripts : Option (List (String × String))
  deriving DecidableEq

/-- The filesystem state `checkWorkspaceHealth` reads: whether `package.json`
exists, and its parse result (`none` = `await packageJson.json()` throws). -/
structure Workspace where
  packageJsonExists : Bool
  packageJson : Option PackageJson
  deriving DecidableEq

structure HealthResult where
  valid : Bool
  reason : Option String := none
  deriving DecidableEq

/-- verifier.ts `checkWorkspaceHealth`. -/
def checkWorkspaceHealth (ws : Workspace) : HealthResult :=
  if !ws.packageJsonExists then
    { valid := false, reason := some "No package.json found" }
  else
    match ws.packageJson with
    | none => { valid := false, reason := some "Invalid package.json" }
    | some pkg =>
      match pkg.scripts with
      | none => { valid := false, reason := some "No scripts defined in package.json" }
      | some _ => { valid := true }

/-! ### router.ts: the `Semaphore` class

The class state is `permits` and `queue` (waiter resolve callbacks, identified
here by numeric ids).  The set of in-flight holders is tracked alongside, as
`withPermit` callers between `acquire` and `release`.  Events are atomic steps
of the single-threaded event loop. -/

structure SemSys where
  permits : Nat
  queue : List Nat
  holders : List Nat
  deriving DecidableEq

/-- A fresh `new Semaphore(n)` with no in-flight holders. -/
def initSem (n : Nat) : SemSys :=
  { permits := n, queue := [], holders := [] }

/-- `acquire()` by context `id`: take a permit if one remains, otherwise join
the back of the wait queue. -/
def acquireStep (s : SemSys) (id : Nat) : SemSys :=
  if 0 < s.permits then
    { s with permits := s.permits - 1, holders := s.holders ++ [id] }
  else
    { s with queue := s.queue ++ [id] }

/-- `release()` by holder `rid`: `queue.shift()` wakes the longest waiter
(which becomes in-flight), otherwise the permit is returned.  The second
component is the waiter that was unblocked, if any. -/
def releaseStep (s : SemSys) (rid : Nat) : SemSys × Option Nat :=
  match s.queue with
  | next :: rest =>
    ({ permits := s.permits, queue := rest, holders := (s.holders.erase rid) ++ [next] },
      some next)
  | [] =>
    ({ permits := s.permits + 1, queue := [], holders := s.holders.erase rid }, none)

inductive SemEvent
  | acq (id : Nat)
  | rel (rid : Nat)
  deriving DecidableEq

def semStep (s : SemSys) : SemEvent → SemSys
  | SemEvent.acq id => acquireStep s id
  | SemEvent.rel rid => (releaseStep s rid).1

/-- A trace is valid when every `release` is performed by a current holder
(the source contract: `release` is only reached through `withPermit`). -/
def validFromB (s : SemSys) : List SemEvent → Bool
  | [] => true
  | e :: rest =>
    (match e with
     | SemEvent.acq _ => true
     | SemEvent.rel rid => s.holders.contains rid) && validFromB (semStep s e) rest

def semRun (s : SemSys) : List SemEvent → SemSys
  | [] => s
  | e :: rest => semRun (semStep s e) rest

/-! ### index.ts: the `runOrchestrator` driver loop

One loop iteration consumes one `EnvStep` describing the external world: the
model call either throws or returns a response string (parsed by the real
`parsePatch`), then `applyPatch` and `runVerification` outcomes.  Later fields
are only consulted when the iteration reaches them. -/

/-- Outcome of `callModel` for one iteration. -/
inductive ModelOutcome
  | threw (message : String)
  | ok (content : String)
  deriving DecidableEq

structure EnvStep where
  model : ModelOutcome
  applySuccess : Bool := true
  applyError : Option String := none
  verifySuccess : Bool := true
  verifyErrors : Option (List String) := none
  deriving DecidableEq

/-- The telemetry events the driver emits (telemetry.ts `LogEvent`), with the
fields the driver attaches. -/
inductive LogEvent
  | taskCreated
  | modelCallError (message : String)
  | patchRejected (reason : Option String)
  | patchApplied (linesChanged : Option Nat)
  | verificationStart
  | verificationPass
  | verificationFail (errorCount : Nat)
  | escalation (newTier : Tier)
  | taskComplete (totalAttempts : Nat) (finalTier : Tier)
  | taskAbort (totalAttempts : Nat) (finalTier : Tier)
  deriving DecidableEq

structure DriverState where
  task : Task
  errors : List String
  events : List LogEvent
  result : Option Bool
  deriving DecidableEq

/-- The shared `if (shouldEscalate(task, errors)) { task = escalateTask(task); log }`
tail of the three failure paths.  `escalateTask` cannot return `none` under the
`shouldEscalate` guard (the source would throw there). -/
def applyEscalation (task : Task) (events : List LogEvent) (errors : List String) :
    Task × List LogEvent :=
  if shouldEscalate task errors then
    match escalateTask task with
    | some escalated => (escalated, events ++ [LogEvent.escalation escalated.tier])
    | none => (task, events)
  else
    (task, events)

/-- One iteration of the `while (!shouldAbort(task))` loop of `runOrchestrator`.
A finished run (`result = some _`) is left unchanged. -/
def driverStep (env : EnvStep) (s : DriverState) : DriverState :=
  match s.result with
  | some _ => s
  | none =>
    if shouldAbort s.task then
      { s with
        result := some false
        events := s.events ++ [LogEvent.taskAbort s.task.attempt s.task.tier] }
    else
      let task := incrementAttempt s.task
      match env.model with
      | ModelOutcome.threw message =>
        { task := task
          errors := ["Model call failed: " ++ message]
          events := s.events ++ [LogEvent.modelCallError message]
          result := none }
      | ModelOutcome.ok content =>
        let patchResult := parsePatch content
        if !patchResult.success || jsFalsyStrOpt patchResult.patch then
          let errors := [jsOrStr patchResult.error "Failed to parse patch"]
          let next := applyEscalation task
            (s.events ++ [LogEvent.patchRejected patchResult.error]) errors
          { task := next.1, errors := errors, events := next.2, result := none }
        else
          let events1 := s.events ++ [LogEvent.patchApplied patchResult.linesChanged]
          if !env.applySuccess then
            let errors := [jsOrStr env.applyError "Failed to apply patch"]
            let next := applyEscalation task
              (events1 ++ [LogEvent.patchRejected env.applyError]) errors
            { task := next.1, errors := errors, events := next.2, result := none }
          else
            let events2 := events1 ++ [LogEvent.verificationStart]
            if env.verifySuccess then
              { task := task
                errors := s.errors
                events := events2 ++
                  [LogEvent.verificationPass, LogEvent.taskComplete task.attempt task.tier]
                result := some true }
            else
              let errors := env.verifyErrors.getD ["Verification failed"]
              let next := applyEscalation task
                (events2 ++ [LogEvent.verificationFail (env.verifyErrors.getD []).length])
                errors
              { task := next.1, errors := errors, events := next.2, result := none }

/-- The driver state right after `createTask` and the `task_created` log line. -/
def createdDriverState (description : String) (filesOwned : List String) : DriverState :=
  { task := createTask description filesOwned
    errors := []
    events := [LogEvent.taskCreated]
    result := none }

/-- Run the loop against a list of per-iteration environments. -/
def driverRun (envs : List EnvStep) (s : DriverState) : DriverState :=
  envs.foldl (fun st e => driverStep e st) s

def isEscalationEvent : LogEvent → Bool
  | LogEvent.escalation _ => true
  | _ => false

def isAbortEvent : LogEvent → Bool
  | LogEvent.taskAbort _ _ => true
  | _ => false

def countEscalations (events : List LogEvent) : Nat :=
  (events.filter isEscalationEvent).length

/-! ### Concrete inputs used by the theorems below -/

/-- A task at tier fast that has exhausted the fast tier (2 attempts there,
2 attempts in total). -/
def taskC1 : Task :=
  { id := ""
    description := "fix bug"
    filesOwned := ["src/a.ts"]
    tier := Tier.fast
    attempt := 2
    maxAttempts := 5
    tierAttempts := { fast := 2, deep := 0, reviewer := 0 } }

/-- A task at the last tier (reviewer) whose per-tier counter is at the cap. -/
def taskC5 : Task :=
  { id := ""
    description := "fix bug"
    filesOwned := ["src/a.ts"]
    tier := Tier.reviewer
    attempt := 4
    maxAttempts := 5
    tierAttempts := { fast := 2, deep := 2, reviewer := 2 } }

/-- An iteration whose model call throws. -/
def mThrowEnv : EnvStep := { model := ModelOutcome.threw "connection refused" }

/-- A well-formed model response: a fenced one-line diff. -/
def goodDiffContent : String := "```diff\n--- a/f\n+++ b/f\n+x\n```"

/-- An iteration that parses and applies fine but fails verification. -/
def verifyFailEnv : EnvStep :=
  { model := ModelOutcome.ok goodDiffContent
    verifySuccess := false
    verifyErrors := some ["type error at line 3"] }

/-- An iteration that parses, applies and verifies successfully. -/
def verifyPassEnv : EnvStep := { model := ModelOutcome.ok goodDiffContent }

/-- A freshly created small task (1 file, short description ⇒ tier fast). -/
def initialDriverState : DriverState := createdDriverState "fix bug" ["src/a.ts"]

def driverAfterThreeModelFailures : DriverState :=
  driverRun [mThrowEnv, mThrowEnv, mThrowEnv] initialDriverState

def driverAfterTwoModelFailures : DriverState :=
  driverRun [mThrowEnv, mThrowEnv] initialDriverState

def driverAfterTwoVerifyFailures : DriverState :=
  driverRun [verifyFailEnv, verifyFailEnv] initialDriverState

/-- The C4 scenario: verification fails on the first two iterations and
passes on the third. -/
def driverEscalationScenario : DriverState :=
  driverRun [verifyFailEnv, verifyFailEnv, verifyPassEnv] initialDriverState

/-- One `+a` changed line. -/
def plusLine : List Char := ['+', 'a']

/-- Join character-lines with newlines (no trailing newline). -/
def nlJoin : List (List Char) → List Char
  | [] => []
  | [l] => l
  | l :: ls => l ++ '\n' :: nlJoin ls

/-- A diff body of `n` changed lines. -/
def diffBody (n : Nat) : List Char :=
  nlJoin (List.replicate n plusLine)

/-- A model response carrying a fenced diff of `n` changed lines. -/
def diffResponse (n : Nat) : String :=
  String.mk (diffOpen ++ (diffBody n ++ ('\n' :: closeFence)))

/-- The semaphore state invariant at capacity `n`: free permits plus in-flight
holders account for the whole capacity, and nobody waits while a permit is free. -/
def semInv (n : Nat) (s : SemSys) : Prop :=
  s.permits + s.holders.length = n ∧ (s.queue ≠ [] → s.permits = 0)

/-! ## Theorems -/

/-- A single valid semaphore event preserves the capacity invariant. -/
theorem semInv_step (n : Nat) (s : SemSys) (e : SemEvent)
    (hinv : semInv n s)
    (hval : match e with
            | SemEvent.acq _ => True
            | SemEvent.rel rid => rid ∈ s.holders) :
    semInv n (semStep s e) := by
  obtain ⟨hsum, hq⟩ := hinv
  cases e with
  | acq id =>
    simp only [semStep, acquireStep]
    by_cases hp : 0 < s.permits
    · have hqe : s.queue = [] := by
        by_contra hne
        have := hq hne
        omega
      refine ⟨?_, ?_⟩
      · simp only [if_pos hp, List.length_append, List.length_cons, List.length_nil]
        omega
      · intro hne
        simp only [if_pos hp, hqe] at hne
        exact absurd rfl hne
    · refine ⟨?_, ?_⟩
      · simp only [if_neg hp]
        exact hsum
      · intro _
        simp only [if_neg hp]
        omega
  | rel rid =>
    have hval' : rid ∈ s.holders := hval
    have hlen : (s.holders.erase rid).length = s.holders.length - 1 :=
      List.length_erase_of_mem hval'
    have hpos : 0 < s.holders.length := List.length_pos_of_mem hval'
    simp only [semStep]
    cases hq' : s.queue with
    | nil =>
      simp only [releaseStep, hq']
      refine ⟨?_, ?_⟩
      · simp only [hlen]
        omega
      · intro hne
        exact absurd rfl hne
    | cons next rest =>
      have hp0 : s.permits = 0 := hq (by simp [hq'])
      simp only [releaseStep, hq']
      refine ⟨?_, ?_⟩
      · simp only [List.length_append, List.length_cons, List.length_nil, hlen]
        omega
      · intro _
        exact hp0

/-- Every valid trace from an invariant-satisfying state keeps the invariant. -/
theorem semInv_run (n : Nat) (events : List SemEvent) :
    ∀ s : SemSys, semInv n s → validFromB s events = true → semInv n (semRun s events) := by
  induction events with
  | nil =>
    intro s h _
    exact h
  | cons e rest ih =>
    intro s hinv hv
    simp only [validFromB, Bool.and_eq_true] at hv
    refine ih (semStep s e) (semInv_step n s e hinv ?_) hv.2
    cases e with
    | acq id => trivial
    | rel rid =>
      exact List.mem_of_elem_eq_true hv.1

/-- Claim C6: for every semaphore of capacity `n` and every valid event trace,
the number of in-flight holders never exceeds `n`; whenever the wait queue is
non-empty, a `release` unblocks exactly the head waiter (the first-requested
one), which becomes in-flight, and leaves the rest queued; and a further
`acquire` either proceeds immediately or joins the back of the queue, so
waiters are unblocked in first-requested-first-unblocked order. -/
theorem semaphore_bounded_fifo (n : Nat) (events : List SemEvent)
    (hvalid : validFromB (initSem n) events = true) :
    (semRun (initSem n) events).holders.length ≤ n ∧
    (∀ rid next rest, (semRun (initSem n) events).queue = next :: rest →
      (releaseStep (semRun (initSem n) events) rid).2 = some next ∧
      (releaseStep (semRun (initSem n) events) rid).1.queue = rest ∧
      next ∈ (releaseStep (semRun (initSem n) events) rid).1.holders) ∧
    (∀ id, (acquireStep (semRun (initSem n) events) id).queue =
        (semRun (initSem n) events).queue ∨
      (acquireStep (semRun (initSem n) events) id).queue =
        (semRun (initSem n) events).queue ++ [id]) := by
  have hinv : semInv n (semRun (initSem n) events) :=
    semInv_run n events (initSem n)
      ⟨by simp [initSem], fun h => absurd rfl h⟩ hvalid
  refine ⟨?_, ?_, ?_⟩
  · have := hinv.1
    omega
  · intro rid next rest hq
    refine ⟨?_, ?_, ?_⟩
    · simp only [releaseStep, hq]
    · simp only [releaseStep, hq]
    · simp only [releaseStep, hq]
      exact List.mem_append_right _ (List.mem_singleton.mpr rfl)
  · intro id
    by_cases hp : 0 < (semRun (initSem n) events).permits
    · left
      simp only [acquireStep, if_pos hp]
    · right
      simp only [acquireStep, if_neg hp]

/-- Witness for C6: capacity 1, two concurrent acquires (ids 7 then 9): one
holder, one waiter; the holder's release unblocks exactly waiter 9. -/
theorem semaphore_bounded_fifo_witness :
    validFromB (initSem 1) [SemEvent.acq 7, SemEvent.acq 9] = true ∧
    (semRun (initSem 1) [SemEvent.acq 7, SemEvent.acq 9]).holders.length ≤ 1 ∧
    (releaseStep (semRun (initSem 1) [SemEvent.acq 7, SemEvent.acq 9]) 7).2 = some 9 ∧
    (releaseStep (semRun (initSem 1) [SemEvent.acq 7, SemEvent.acq 9]) 7).1.queue = [] ∧
    9 ∈ (releaseStep (semRun (initSem 1) [SemEvent.acq 7, SemEvent.acq 9]) 7).1.holders := by
  have h := semaphore_bounded_fifo 1 [SemEvent.acq 7, SemEvent.acq 9] (by decide)
  have h2 := h.2.1 7 9 [] (by decide)
  exact ⟨by decide, h.1, h2.1, h2.2.1, h2.2.2⟩

/-- Claim C5: at a tier with no successor whose per-tier counter has reached
the cap, `shouldEscalate` is false, `shouldAbort` is true, and `escalateTask`
produces no valid output. -/
theorem lastTier_escalation_impossible (task : Task) (errs : List String)
    (hlast : getNextTier task.tier = none)
    (hcap : MAX_ATTEMPTS_PER_TIER ≤ task.tierAttempts.get task.tier) :
    shouldEscalate task errs = false ∧ shouldAbort task = true ∧ escalateTask task = none := by
  refine ⟨?_, ?_, ?_⟩
  · simp [shouldEscalate, hlast, hcap]
  · simp [shouldAbort, hlast, hcap]
  · simp [escalateTask, hlast]

/-- Witness for C5: a reviewer-tier task with the reviewer counter at the cap. -/
theorem lastTier_escalation_impossible_witness :
    getNextTier taskC5.tier = none ∧
    MAX_ATTEMPTS_PER_TIER ≤ taskC5.tierAttempts.get taskC5.tier ∧
    (shouldEscalate taskC5 [] = false ∧ shouldAbort taskC5 = true ∧
      escalateTask taskC5 = none) :=
  ⟨by decide, by decide,
    lastTier_escalation_impossible taskC5 [] (by decide) (by decide)⟩

/-- Claim C1 (code bug evidence): `escalateTask` on a fast-tier task with
global counter 2 moves to the next tier (deep) and resets that tier's counter
to 0 as claimed, but sets the global attempt counter to 3 — it increments it
by one instead of leaving it unchanged. -/
theorem escalateTask_increments_global_counter :
    escalateTask taskC1 =
      some { id := ""
             description := "fix bug"
             filesOwned := ["src/a.ts"]
             tier := Tier.deep
             attempt := 3
             maxAttempts := 5
             tierAttempts := { fast := 2, deep := 0, reviewer := 0 } } ∧
    taskC1.attempt = 2 := by
  exact ⟨by decide, by decide⟩

/-- Claim C2 (code bug evidence): after three consecutive model-call failures
the task is still at tier fast with its fast-tier counter at 3 — strictly above
the per-tier cap of 2 — yet no escalation event was emitted, no abort event was
emitted, and the run is still pending, refuting the claimed invariant on this
reachable state. -/
theorem driver_tier_cap_exceeded_without_escalation :
    driverAfterThreeModelFailures.task.tier = Tier.fast ∧
    driverAfterThreeModelFailures.task.tierAttempts.get Tier.fast = 3 ∧
    MAX_ATTEMPTS_PER_TIER < driverAfterThreeModelFailures.task.tierAttempts.get Tier.fast ∧
    countEscalations driverAfterThreeModelFailures.events = 0 ∧
    (driverAfterThreeModelFailures.events.filter isAbortEvent).length = 0 ∧
    driverAfterThreeModelFailures.result = none := by
  exact ⟨by decide, by decide, by decide, by decide, by decide, by decide⟩

/-- Claim C3 (code bug evidence): after two model-call failures the synthetic
error message is recorded as the sole error list (as claimed), and the task's
fast-tier counter is at the cap so `shouldEscalate` returns true — but the
driver emitted no escalation event, because the model-failure path `continue`s
to the loop top without evaluating step 7; two verification failures at the
same point do produce exactly one escalation. -/
theorem driver_model_failure_skips_escalation :
    driverAfterTwoModelFailures.errors = ["Model call failed: connection refused"] ∧
    driverAfterTwoModelFailures.task.tierAttempts.get Tier.fast = 2 ∧
    shouldEscalate driverAfterTwoModelFailures.task driverAfterTwoModelFailures.errors = true ∧
    driverAfterTwoModelFailures.task.tier = Tier.fast ∧
    countEscalations driverAfterTwoModelFailures.events = 0 ∧
    driverAfterTwoModelFailures.result = none ∧
    countEscalations driverAfterTwoVerifyFailures.events = 1 := by
  exact ⟨by decide, by decide, by decide, by decide, by decide, by decide, by decide⟩

/-- Claim C4 (code bug evidence): a fast-tier task whose first two attempts
fail verification and whose third passes does terminate Succeeded at tier deep
with exactly one escalation event — but the total attempt counter is 4, not 3,
because `escalateTask` also increments the global counter. -/
theorem driver_escalation_scenario_attempt_count :
    driverEscalationScenario.result = some true ∧
    driverEscalationScenario.task.tier = Tier.deep ∧
    countEscalations driverEscalationScenario.events = 1 ∧
    driverEscalationScenario.task.attempt = 4 := by
  exact ⟨by decide, by decide, by decide, by decide⟩

/-- Claim C9 counterexample: a workspace whose manifest parses and carries an
empty scripts table (no runnable script declared) is reported valid — the
check only tests presence of the `scripts` field. -/
theorem checkWorkspaceHealth_empty_scripts_reported_valid :
    checkWorkspaceHealth
        { packageJsonExists := true, packageJson := some { scripts := some [] } } =
      { valid := true, reason := none } := by
  decide

/-- Claim C9 (amended): `checkWorkspaceHealth` reports valid exactly when the
manifest exists, parses, and has a (possibly empty) `scripts` field; only a
missing or unparseable manifest or an absent `scripts` field is invalid. -/
theorem checkWorkspaceHealth_valid_iff (ws : Workspace) :
    (checkWorkspaceHealth ws).valid = true ↔
      (ws.packageJsonExists = true ∧
        ∃ pkg, ws.packageJson = some pkg ∧ pkg.scripts.isSome = true) := by
  obtain ⟨hex, pj⟩ := ws
  cases hex with
  | false => simp [checkWorkspaceHealth]
  | true =>
    cases pj with
    | none => simp [checkWorkspaceHealth]
    | some pkg =>
      cases hpk : pkg.scripts with
      | none => simp [checkWorkspaceHealth, hpk]
      | some l => simp [checkWorkspaceHealth, hpk]

/-- Claim C10: `runVerification` substitutes its defaults for falsy config
values — an explicit timeout of 0 behaves exactly like an absent timeout, the
resolved timeout is the 60 000 ms default, and no configuration can make the
resolved timeout zero. -/
theorem runVerification_zero_timeout_default (exec : String → Nat → CmdOutcome)
    (cmds : Option (List String)) :
    runVerification exec { commands := cmds, timeout := some 0 } =
      runVerification exec { commands := cmds, timeout := none } ∧
    resolveTimeout (some 0) = DEFAULT_TIMEOUT ∧
    DEFAULT_TIMEOUT = 60000 ∧
    resolveCommands none = DEFAULT_COMMANDS ∧
    (∀ t : Option Nat, 0 < resolveTimeout t) := by
  refine ⟨rfl, rfl, rfl, rfl, ?_⟩
  intro t
  cases t with
  | none => simp [resolveTimeout, DEFAULT_TIMEOUT]
  | some n =>
    by_cases hn : n = 0
    · simp [resolveTimeout, hn, DEFAULT_TIMEOUT]
    · simp only [resolveTimeout, if_neg hn]
      omega

/-- Claim C7: for every model response containing a fenced diff block, if the
trimmed diff has 301 changed lines (lines starting with `+`/`-`, the
`+++`/`---` headers excluded) then `parsePatch` rejects it reporting exactly
301, and if it has exactly 300 it is accepted carrying the diff text and the
count 300. -/
theorem parsePatch_size_gate (response diffText : String)
    (h : extractDiffBlock response = some diffText) :
    ((changeLines (jsTrim diffText)).length = 301 →
      parsePatch response =
        { success := false
          error := some "Patch too large: 301 lines (max 300)"
          linesChanged := some 301 }) ∧
    ((changeLines (jsTrim diffText)).length = 300 →
      parsePatch response =
        { success := true
          patch := some (jsTrim diffText)
          linesChanged := some 300 }) := by
  constructor
  · intro hc
    simp only [parsePatch, h, hc]
    norm_num [MAX_PATCH_LINES]
    decide
  · intro hc
    simp only [parsePatch, h, hc]
    norm_num [MAX_PATCH_LINES]

/-- Witness for C7: a response with 301 `+a` lines is rejected reporting 301;
one with 300 such lines is accepted with count 300. -/
theorem parsePatch_size_gate_witness :
    extractDiffBlock (diffResponse 301) = some (String.mk (diffBody 301 ++ ['\n'])) ∧
    (changeLines (jsTrim (String.mk (diffBody 301 ++ ['\n'])))).length = 301 ∧
    parsePatch (diffResponse 301) =
      { success := false
        error := some "Patch too large: 301 lines (max 300)"
        linesChanged := some 301 } ∧
    extractDiffBlock (diffResponse 300) = some (String.mk (diffBody 300 ++ ['\n'])) ∧
    (changeLines (jsTrim (String.mk (diffBody 300 ++ ['\n'])))).length = 300 ∧
    parsePatch (diffResponse 300) =
      { success := true
        patch := some (jsTrim (String.mk (diffBody 300 ++ ['\n'])))
        linesChanged := some 300 } := by
  have h301 : extractDiffBlock (diffResponse 301) =
      some (String.mk (diffBody 301 ++ ['\n'])) := by decide
  have h300 : extractDiffBlock (diffResponse 300) =
      some (String.mk (diffBody 300 ++ ['\n'])) := by decide
  have hc301 : (changeLines (jsTrim (String.mk (diffBody 301 ++ ['\n'])))).length = 301 := by
    decide
  have hc300 : (changeLines (jsTrim (String.mk (diffBody 300 ++ ['\n'])))).length = 300 := by
    decide
  exact ⟨h301, hc301, (parsePatch_size_gate _ _ h301).1 hc301,
    h300, hc300, (parsePatch_size_gate _ _ h300).2 hc300⟩

/-- Claim C8 counterexample: the recognized command `bun run typecheck` with
the non-empty output `all good` (which contains no diagnostic-marker line)
makes `parseErrors` return the generic "failed with non-zero exit code"
message, not a fixed-size prefix of the raw output — so the generic message is
not reserved for empty output. -/
theorem parseErrors_generic_on_nonempty_output :
    parseErrors "all good" "bun run typecheck" =
      ["bun run typecheck failed with non-zero exit code"] ∧
    "all good" ≠ "" ∧
    strIncludes "bun run typecheck" "typecheck" = true ∧
    parseErrorsRaw "all good" "bun run typecheck" = [] ∧
    parseErrors "all good" "bun run typecheck" ≠
      ["bun run typecheck" ++ ": " ++ jsSlice "all good" 500] := by
  exact ⟨by decide, by decide, by decide, by decide, by decide⟩

/-- Claim C8 (amended): a recognized verification command (typecheck/tsc,
lint/eslint, build) whose output yields no diagnostic-marker line gets the
generic "failed with non-zero exit code" message whether or not the output is
empty; the fixed-size 500-character raw-output prefix is returned only for
unrecognized commands with non-whitespace output. -/
theorem parseErrors_fallback_characterization (output command : String) :
    ((strIncludes command "typecheck" || strIncludes command "tsc" ||
        strIncludes command "lint" || strIncludes command "eslint" ||
        strIncludes command "build") = true →
      parseErrorsRaw output command = [] →
      parseErrors output command = [command ++ " failed with non-zero exit code"]) ∧
    ((strIncludes command "typecheck" || strIncludes command "tsc" ||
        strIncludes command "lint" || strIncludes command "eslint" ||
        strIncludes command "build") = false →
      jsTrim output ≠ "" →
      parseErrors output command = [command ++ ": " ++ jsSlice output 500]) := by
  constructor
  · intro _ hraw
    simp [parseErrors, hraw]
  · intro hrec hne
    simp only [Bool.or_eq_false_iff] at hrec
    obtain ⟨⟨⟨⟨h1, h2⟩, h3⟩, h4⟩, h5⟩ := hrec
    simp [parseErrors, parseErrorsRaw, h1, h2, h3, h4, h5, hne]

/-- Witness for C8 (amended): the recognized `bun run tsc` with marker-free
output gets the generic message; the unrecognized `bun run smoke` with
non-empty output gets the 500-character prefix fallback. -/
theorem parseErrors_fallback_characterization_witness :
    parseErrors "looks fine" "bun run tsc" =
      ["bun run tsc" ++ " failed with non-zero exit code"] ∧
    parseErrors "boom" "bun run smoke" =
      ["bun run smoke" ++ ": " ++ jsSlice "boom" 500] := by
  constructor
  · exact (parseErrors_fallback_characterization "looks fine" "bun run tsc").1
      (by decide) (by decide)
  · exact (parseErrors_fallback_characterization "boom" "bun run smoke").2
      (by decide) (by decide)

end Smol
